import Mathlib

/-!
Shallow embedding of the model inference and explainability pipeline of
src/deployment/app.py (a breast-cancer prediction app), together with
theorems checking the natural-language specification of that pipeline.

Modelling conventions: machine floating-point numbers are modelled by
exact arithmetic — feature values, coefficients and importances are
rationals, and the sigmoid transform is modelled over the reals.  The
numpy/pandas array operations of the source become list operations; the
documented same-length requirements of numpy broadcasting and of the
pandas DataFrame constructor become explicit length guards returning an
error value (the specification names this failure DimensionMismatchError).
-/

namespace BreastCancerApp

/-- The fixed 19-feature input schema (source lines 31-37). -/
def features : List String :=
  ["area_mean", "area_se", "area_worst", "compactness_mean",
   "compactness_worst", "concave points_mean", "concave points_worst",
   "concavity_mean", "concavity_worst", "perimeter_mean", "perimeter_se",
   "perimeter_worst", "radius_mean", "radius_se", "radius_worst",
   "smoothness_worst", "symmetry_worst", "texture_mean", "texture_worst"]

/-- The configured model identifiers (source lines 11-19). -/
def model_names : List String :=
  ["Logistic Regression", "Gradient Boosting", "LightGBM", "XGBoost", "Catboost"]

/-- The tree-ensemble model identifiers tested on source line 72. -/
def tree_model_names : List String :=
  ["Gradient Boosting", "LightGBM", "XGBoost", "Catboost"]

/-- Failure modes of the explainability computations.  In the source these
surface as pandas/numpy ValueError exceptions (length mismatch in the
DataFrame constructor or in elementwise array arithmetic) or as an
unhandled model name falling through every branch; the specification
names them DimensionMismatchError and UnsupportedModelFamilyError. -/
inductive ExplainError where
  | dimensionMismatch
  | unsupportedModelFamily
  deriving DecidableEq

/-- Global feature importance scores (source lines 68-73): the absolute
values of the coefficients for Logistic Regression, the raw
feature_importances for the four tree-ensemble models, and undefined
(the source would raise NameError) for any other model name. -/
def global_importance (selected_model_name : String)
    (coef0 feature_importances : List ℚ) : Option (List ℚ) :=
  if selected_model_name = "Logistic Regression" then
    some (coef0.map (fun c => |c|))
  else if selected_model_name ∈ tree_model_names then
    some feature_importances
  else
    none

/-- The global-importance DataFrame (source lines 76-79): pairs each schema
feature name with its importance score.  The pandas DataFrame constructor
requires all columns to have the same length, so a score sequence whose
length differs from the 19-feature schema fails (DimensionMismatchError). -/
def global_importance_df (importance : List ℚ) :
    Except ExplainError (List (String × ℚ)) :=
  if importance.length = features.length then
    Except.ok (features.zip importance)
  else
    Except.error ExplainError.dimensionMismatch

/-- Dot product of two equal-length numeric sequences, as computed by
np.dot on source line 135. -/
def dot (a b : List ℚ) : ℚ :=
  (List.zipWith (fun x y => x * y) a b).sum

/-- The raw log-odds of the logistic-regression explanation (source line
135): intercept + np.dot(input, coefs). -/
def log_odds (intercept : ℚ) (coefs input : List ℚ) : ℚ :=
  intercept + dot input coefs

/-- The logistic sigmoid 1 / (1 + exp (-x)), as on source line 136. -/
noncomputable def sigmoid (x : ℝ) : ℝ :=
  1 / (1 + Real.exp (-x))

/-- The sigmoid-transformed malignant probability computed by the
explanation path (source line 136). -/
noncomputable def probability (intercept : ℚ) (coefs input : List ℚ) : ℝ :=
  sigmoid ((log_odds intercept coefs input : ℚ) : ℝ)

/-- Modelled from the spec: the Linear-family (Logistic Regression) handle
exposes a predictProbability capability whose implementation lives in a
serialized model artifact (models/logistic_regression.pkl) that is not part
of the source tree.  Per the specification, its output is the probability
pair (P(Benign), P(Malignant)) with P(Malignant) the sigmoid of
intercept + dot(coefficients, input) and P(Benign) its complement. -/
noncomputable def linear_predict_probability (intercept : ℚ)
    (coefs input : List ℚ) : ℝ × ℝ :=
  (1 - sigmoid ((intercept + dot coefs input : ℚ) : ℝ),
   sigmoid ((intercept + dot coefs input : ℚ) : ℝ))

/-- Per-feature local contributions for the Linear family (source lines
139-144): coefs * input, elementwise.  Numpy elementwise multiplication
(line 143) requires both operand lengths to agree, and the surrounding
DataFrame constructor requires them to agree with the 19-name Feature
column, so a mismatched coefficient sequence fails
(DimensionMismatchError). -/
def feature_contributions_linear (coefs input : List ℚ) :
    Except ExplainError (List ℚ) :=
  if coefs.length = input.length ∧ coefs.length = features.length then
    Except.ok (List.zipWith (fun c v => c * v) coefs input)
  else
    Except.error ExplainError.dimensionMismatch

/-- Per-feature local contributions for the Tree-ensemble family (source
lines 157-163): feature_importances * input, elementwise.  The DataFrame
constructor on lines 158-162 requires the importance and value columns to
have the schema length, so a mismatched importance sequence fails
(DimensionMismatchError). -/
def feature_contributions_tree (feature_importances input : List ℚ) :
    Except ExplainError (List ℚ) :=
  if feature_importances.length = features.length ∧
      input.length = features.length then
    Except.ok (List.zipWith (fun imp v => imp * v) feature_importances input)
  else
    Except.error ExplainError.dimensionMismatch

/-- Mapping of the raw numeric prediction to the displayed and persisted
label text (source lines 114-119): 1 becomes "Malignant", every other
value falls into the else-branch and becomes "Benign". -/
def prediction_result (p : ℤ) : String :=
  if p = 1 then "Malignant" else "Benign"

/-- A loaded model, normalized to the capability surface the app uses: a
predict capability and an optional predict_proba capability (the source
probes for it with hasattr on line 110).  predict returns the raw numeric
class label; predict_proba returns the (P(Benign), P(Malignant)) pair for
the single input row. -/
structure ModelHandle where
  predict : List ℚ → ℤ
  predict_proba : Option (List ℚ → ℚ × ℚ)

/-- The probability pair obtained for an input (source line 110):
model.predict_proba(input) if the handle has that capability, else None. -/
def prediction_proba (model : ModelHandle) (input : List ℚ) :
    Option (ℚ × ℚ) :=
  match model.predict_proba with
  | some f => some (f input)
  | none => none

/-- One row of the predictions audit table (source lines 48-56 give the
column types; lines 174-186 the insert).  The float() casts on lines
182-183 are the identity in this exact-arithmetic model; the surrogate id
and created_at timestamp are assigned by the store, not by the caller. -/
structure AuditRecord where
  model_name : String
  prediction : String
  prediction_proba_benign : Option ℚ
  prediction_proba_malignant : Option ℚ
  input_data : List (String × ℚ)
  deriving DecidableEq

/-- The audit record built for one completed prediction request (source
lines 114-129 compute the fields, lines 174-186 persist them): the label
text from prediction_result, and the two probability fields taken from the
same prediction_proba output when it is present (lines 122-123) or both
set to None when it is absent (lines 128-129). -/
def build_audit_record (selected_model_name : String) (model : ModelHandle)
    (input : List ℚ) (input_data : List (String × ℚ)) : AuditRecord :=
  { model_name := selected_model_name
    prediction := prediction_result (model.predict input)
    prediction_proba_benign :=
      match prediction_proba model input with
      | some p => some p.1
      | none => none
    prediction_proba_malignant :=
      match prediction_proba model input with
      | some p => some p.2
      | none => none
    input_data := input_data }

/-- The state of the backing database: the set of existing table names and
the rows of the predictions table. -/
structure DBState where
  tables : List String
  rows : List AuditRecord
  deriving DecidableEq

/-- The schema-creation statement run on every process start (source lines
47-59): CREATE TABLE IF NOT EXISTS predictions.  Per the documented SQL
semantics of IF NOT EXISTS, the statement creates the table when it is
absent and is a no-op (raising no error) when it is already present. -/
def ensure_schema (db : DBState) : DBState :=
  if "predictions" ∈ db.tables then db
  else { db with tables := db.tables ++ ["predictions"] }

/-- The INSERT INTO predictions statement (source lines 174-186): appends
one audit record to the predictions table. -/
def append (db : DBState) (record : AuditRecord) : DBState :=
  { db with rows := db.rows ++ [record] }

/-! ### Basic facts about the embedding -/

theorem features_length : features.length = 19 := rfl

theorem getD_zipWith_mul (a b : List ℚ) (i : ℕ) :
    (List.zipWith (fun x y => x * y) a b).getD i 0 =
      a.getD i 0 * b.getD i 0 := by
  induction a generalizing b i with
  | nil => simp [List.getD]
  | cons x xs ih =>
    cases b with
    | nil => simp [List.getD]
    | cons y ys =>
      cases i with
      | zero => simp
      | succ n => simpa using ih ys n

theorem getD_map_abs (l : List ℚ) (i : ℕ) :
    (l.map (fun c => |c|)).getD i 0 = |l.getD i 0| := by
  induction l generalizing i with
  | nil => simp [List.getD]
  | cons x xs ih =>
    cases i with
    | zero => simp
    | succ n => simpa using ih n

theorem dot_comm (a b : List ℚ) : dot a b = dot b a := by
  unfold dot
  induction a generalizing b with
  | nil => cases b <;> simp
  | cons x xs ih =>
    cases b with
    | nil => simp
    | cons y ys => simp [ih ys, mul_comm]

/-! ### Claim theorems -/

/-- C1: for every Linear-family (Logistic Regression) handle and every
schema-complete feature vector, the local contribution of feature i equals
coefficient i times input i — the signed product, not its absolute
value — for every feature i of the 19-feature schema. -/
theorem linear_local_contribution_eq_signed_product (coefs input : List ℚ)
    (hc : coefs.length = features.length)
    (hi : input.length = features.length) (i : ℕ) :
    feature_contributions_linear coefs input =
      Except.ok (List.zipWith (fun c v => c * v) coefs input) ∧
    (List.zipWith (fun c v => c * v) coefs input).getD i 0 =
      coefs.getD i 0 * input.getD i 0 := by
  constructor
  · unfold feature_contributions_linear
    rw [if_pos ⟨hc.trans hi.symm, hc⟩]
  · exact getD_zipWith_mul coefs input i

/-- Witness for C1 at a concrete schema-complete input: a negative
coefficient yields a negative (signed) contribution. -/
theorem linear_local_contribution_witness :
    feature_contributions_linear
        [1, -2, 3, 0, 0, 0, 0, 0, 0, 0, 0, 0, 0, 0, 0, 0, 0, 0, 0]
        [5, 7, 2, 0, 0, 0, 0, 0, 0, 0, 0, 0, 0, 0, 0, 0, 0, 0, 0] =
      Except.ok (List.zipWith (fun c v => c * v)
        [1, -2, 3, 0, 0, 0, 0, 0, 0, 0, 0, 0, 0, 0, 0, 0, 0, 0, 0]
        [5, 7, 2, 0, 0, 0, 0, 0, 0, 0, 0, 0, 0, 0, 0, 0, 0, 0, 0]) ∧
    (List.zipWith (fun c v => c * v)
        [1, -2, 3, 0, 0, 0, 0, 0, 0, 0, 0, 0, 0, 0, 0, 0, 0, 0, 0]
        [5, 7, 2, 0, 0, 0, 0, 0, 0, 0, 0, 0, 0, 0, 0, 0, 0, 0, 0]).getD 1 0 =
      ([1, -2, 3, 0, 0, 0, 0, 0, 0, 0, 0, 0, 0, 0, 0, 0, 0, 0, 0] :
        List ℚ).getD 1 0 *
      ([5, 7, 2, 0, 0, 0, 0, 0, 0, 0, 0, 0, 0, 0, 0, 0, 0, 0, 0] :
        List ℚ).getD 1 0 :=
  linear_local_contribution_eq_signed_product _ _ (by decide) (by decide) 1

/-- C2: for every Linear-family handle and schema-complete input, the raw
log-odds computed by the engine equals intercept + dot(coefficients,
input), and the sigmoid of that log-odds agrees with the malignant
probability of the handle predictProbability output (modelled from the
spec) within 1e-6 absolute tolerance — here they agree exactly. -/
theorem log_odds_and_sigmoid_match_predict_probability (intercept : ℚ)
    (coefs input : List ℚ) (hc : coefs.length = features.length)
    (hi : input.length = features.length) :
    log_odds intercept coefs input = intercept + dot coefs input ∧
    |probability intercept coefs input -
        (linear_predict_probability intercept coefs input).2| ≤
      1 / 1000000 := by
  have hdot : dot input coefs = dot coefs input := dot_comm input coefs
  constructor
  · unfold log_odds
    rw [hdot]
  · have : probability intercept coefs input =
        (linear_predict_probability intercept coefs input).2 := by
      unfold probability linear_predict_probability log_odds
      rw [hdot]
    rw [this, sub_self, abs_zero]
    norm_num

/-- Witness for C2 at a concrete schema-complete input. -/
theorem log_odds_and_sigmoid_witness :
    log_odds 2 (List.replicate 19 (1 : ℚ)) (List.replicate 19 (3 : ℚ)) =
      2 + dot (List.replicate 19 (1 : ℚ)) (List.replicate 19 (3 : ℚ)) ∧
    |probability 2 (List.replicate 19 (1 : ℚ))
        (List.replicate 19 (3 : ℚ)) -
      (linear_predict_probability 2 (List.replicate 19 (1 : ℚ))
        (List.replicate 19 (3 : ℚ))).2| ≤ 1 / 1000000 :=
  log_odds_and_sigmoid_match_predict_probability 2 _ _ (by decide) (by decide)

/-- C4: for every importance/coefficient sequence whose length disagrees
with the 19-feature schema length (e.g. 18 coefficients), every
explainability computation that consumes it — the global-importance
DataFrame and both local-contribution computations — fails with
DimensionMismatchError. -/
theorem dimension_mismatch_fails (seq input : List ℚ)
    (h : seq.length ≠ features.length)
    (hi : input.length = features.length) :
    global_importance_df seq = Except.error ExplainError.dimensionMismatch ∧
    feature_contributions_linear seq input =
      Except.error ExplainError.dimensionMismatch ∧
    feature_contributions_tree seq input =
      Except.error ExplainError.dimensionMismatch := by
  refine ⟨?_, ?_, ?_⟩
  · unfold global_importance_df
    rw [if_neg h]
  · unfold feature_contributions_linear
    rw [if_neg]
    intro hand
    exact h hand.2
  · unfold feature_contributions_tree
    rw [if_neg]
    intro hand
    exact h hand.1

/-- Witness for C4: an 18-element coefficient sequence against the
19-feature schema (scenario C of the spec). -/
theorem dimension_mismatch_witness :
    global_importance_df (List.replicate 18 (1 : ℚ)) =
      Except.error ExplainError.dimensionMismatch ∧
    feature_contributions_linear (List.replicate 18 (1 : ℚ))
        (List.replicate 19 (1 : ℚ)) =
      Except.error ExplainError.dimensionMismatch ∧
    feature_contributions_tree (List.replicate 18 (1 : ℚ))
        (List.replicate 19 (1 : ℚ)) =
      Except.error ExplainError.dimensionMismatch :=
  dimension_mismatch_fails _ _ (by decide) (by decide)

/-- C5: for every Tree-ensemble handle and schema-complete input, the local
contribution of feature i equals importance i times input i exactly, and
is non-negative whenever importance i and input i are both non-negative. -/
theorem tree_local_contribution_eq_product (feature_importances input : List ℚ)
    (him : feature_importances.length = features.length)
    (hi : input.length = features.length) (i : ℕ) :
    feature_contributions_tree feature_importances input =
      Except.ok (List.zipWith (fun imp v => imp * v)
        feature_importances input) ∧
    (List.zipWith (fun imp v => imp * v) feature_importances input).getD i 0 =
      feature_importances.getD i 0 * input.getD i 0 ∧
    (0 ≤ feature_importances.getD i 0 → 0 ≤ input.getD i 0 →
      0 ≤ (List.zipWith (fun imp v => imp * v)
        feature_importances input).getD i 0) := by
  have hg := getD_zipWith_mul feature_importances input i
  refine ⟨?_, hg, ?_⟩
  · unfold feature_contributions_tree
    rw [if_pos ⟨him, hi⟩]
  · intro h1 h2
    rw [hg]
    exact mul_nonneg h1 h2

/-- Witness for C5 at a concrete schema-complete input with non-negative
importances and values. -/
theorem tree_local_contribution_witness :
    feature_contributions_tree (List.replicate 19 (2 : ℚ))
        (List.replicate 19 (5 : ℚ)) =
      Except.ok (List.zipWith (fun imp v => imp * v)
        (List.replicate 19 (2 : ℚ)) (List.replicate 19 (5 : ℚ))) ∧
    (List.zipWith (fun imp v => imp * v) (List.replicate 19 (2 : ℚ))
        (List.replicate 19 (5 : ℚ))).getD 0 0 =
      (List.replicate 19 (2 : ℚ)).getD 0 0 *
        (List.replicate 19 (5 : ℚ)).getD 0 0 ∧
    (0 ≤ (List.replicate 19 (2 : ℚ)).getD 0 0 →
      0 ≤ (List.replicate 19 (5 : ℚ)).getD 0 0 →
      0 ≤ (List.zipWith (fun imp v => imp * v) (List.replicate 19 (2 : ℚ))
        (List.replicate 19 (5 : ℚ))).getD 0 0) :=
  tree_local_contribution_eq_product _ _ (by decide) (by decide) 0

/-- C6: the global importance of each feature is the absolute value of its
coefficient for the Logistic Regression model, and the raw
feature_importances value, with no further transform, for each of the four
tree-ensemble models. -/
theorem global_importance_by_family (coef0 feature_importances : List ℚ)
    (i : ℕ) :
    global_importance "Logistic Regression" coef0 feature_importances =
      some (coef0.map (fun c => |c|)) ∧
    (coef0.map (fun c => |c|)).getD i 0 = |coef0.getD i 0| ∧
    global_importance "Gradient Boosting" coef0 feature_importances =
      some feature_importances ∧
    global_importance "LightGBM" coef0 feature_importances =
      some feature_importances ∧
    global_importance "XGBoost" coef0 feature_importances =
      some feature_importances ∧
    global_importance "Catboost" coef0 feature_importances =
      some feature_importances := by
  refine ⟨rfl, getD_map_abs coef0 i, ?_, ?_, ?_, ?_⟩ <;>
    simp [global_importance, tree_model_names]

/-- C7: the probability pair is absent exactly when the handle does not
advertise the predict_proba capability, and in that case both persisted
probability fields of the audit record are null; when the capability is
advertised, the pair and both persisted fields are present. -/
theorem probability_fields_match_capability (model : ModelHandle)
    (input : List ℚ) (selected_model_name : String)
    (input_data : List (String × ℚ)) :
    (prediction_proba model input = none ↔ model.predict_proba = none) ∧
    ((build_audit_record selected_model_name model input
        input_data).prediction_proba_benign = none ↔
      model.predict_proba = none) ∧
    ((build_audit_record selected_model_name model input
        input_data).prediction_proba_malignant = none ↔
      model.predict_proba = none) ∧
    ((build_audit_record selected_model_name model input
        input_data).prediction_proba_benign.isSome ↔
      model.predict_proba.isSome) ∧
    ((build_audit_record selected_model_name model input
        input_data).prediction_proba_malignant.isSome ↔
      model.predict_proba.isSome) := by
  cases h : model.predict_proba <;>
    simp [prediction_proba, build_audit_record, h]

/-- C8: ensure_schema is idempotent — running it a second time changes
nothing — and it leaves exactly one predictions table, given that table
names were not already duplicated. -/
theorem ensure_schema_idempotent (db : DBState)
    (h : db.tables.count "predictions" ≤ 1) :
    ensure_schema (ensure_schema db) = ensure_schema db ∧
    (ensure_schema db).tables.count "predictions" = 1 ∧
    "predictions" ∈ (ensure_schema db).tables := by
  by_cases hmem : "predictions" ∈ db.tables
  · have h1 : ensure_schema db = db := by
      unfold ensure_schema
      rw [if_pos hmem]
    have hcount : 1 ≤ db.tables.count "predictions" :=
      List.count_pos_iff.mpr hmem
    exact ⟨by rw [h1, h1], by rw [h1]; exact Nat.le_antisymm h hcount,
      by rw [h1]; exact hmem⟩
  · have h1 : ensure_schema db =
        { db with tables := db.tables ++ ["predictions"] } := by
      unfold ensure_schema
      rw [if_neg hmem]
    have hmem2 : "predictions" ∈ db.tables ++ ["predictions"] := by
      simp
    have hzero : db.tables.count "predictions" = 0 :=
      List.count_eq_zero.mpr hmem
    refine ⟨?_, ?_, ?_⟩
    · rw [h1]
      unfold ensure_schema
      rw [if_pos hmem2]
    · rw [h1]
      simp [List.count_append, hzero]
    · rw [h1]
      exact hmem2
/-- Witness for C8: starting from an empty database, ensure_schema creates
the predictions table once and a second run changes nothing. -/
theorem ensure_schema_witness :
    ensure_schema (ensure_schema ⟨[], []⟩) = ensure_schema ⟨[], []⟩ ∧
    (ensure_schema ⟨[], []⟩).tables.count "predictions" = 1 ∧
    "predictions" ∈ (ensure_schema (⟨[], []⟩ : DBState)).tables :=
  ensure_schema_idempotent ⟨[], []⟩ (by decide)

/-- C9: the raw numeric prediction maps to exactly one of the two label
texts: 1 maps to "Malignant" and every other value — not only 0 — falls
into the else-branch and maps to "Benign". -/
theorem prediction_label_mapping (p : ℤ) :
    (prediction_result p = "Malignant" ↔ p = 1) ∧
    (prediction_result p = "Benign" ↔ p ≠ 1) ∧
    prediction_result 1 = "Malignant" ∧
    prediction_result 0 = "Benign" ∧
    prediction_result 2 = "Benign" ∧
    prediction_result (-1) = "Benign" := by
  refine ⟨?_, ?_, by decide, by decide, by decide, by decide⟩ <;>
    by_cases h : p = 1 <;> simp [prediction_result, h]

/-- C10: in every audit record built for persistence, the benign
probability field is null exactly when the malignant one is: the two
fields are taken from the same prediction_proba output when it is present
and are both null when it is absent, and the insert appends exactly that
record to the predictions table. -/
theorem audit_probability_fields_both_or_neither (selected_model_name : String)
    (model : ModelHandle) (input : List ℚ)
    (input_data : List (String × ℚ)) (db : DBState) :
    ((build_audit_record selected_model_name model input
        input_data).prediction_proba_benign = none ↔
      (build_audit_record selected_model_name model input
        input_data).prediction_proba_malignant = none) ∧
    (build_audit_record selected_model_name model input
        input_data).prediction_proba_benign =
      Option.map Prod.fst (prediction_proba model input) ∧
    (build_audit_record selected_model_name model input
        input_data).prediction_proba_malignant =
      Option.map Prod.snd (prediction_proba model input) ∧
    (append db (build_audit_record selected_model_name model input
        input_data)).rows =
      db.rows ++ [build_audit_record selected_model_name model input
        input_data] := by
  refine ⟨?_, ?_, ?_, rfl⟩ <;>
    cases h : model.predict_proba <;>
      simp [build_audit_record, prediction_proba, h]

end BreastCancerApp
